import Mathlib

/-!
Verification development for the `metrics_server` crate (file `src/server.rs`).

The program is a mutex-guarded byte buffer (`MetricsServer(Arc<Mutex<Vec<u8>>>)`)
together with an HTTP serving loop.  We give a shallow embedding:

* bytes are `Nat`s, a buffer is a `List Nat`;
* the `Arc` sharing structure is modelled by a heap `MState` mapping
  allocation addresses to buffers, a `MetricsServer` value being an address
  (an `Arc` clone is the same address);
* the per-request dispatch of the serving loop (`method` check, `url` check,
  `Response::from_data` / `Response::empty`) is the pure function
  `handleRequest`;
* `serve`'s startup behaviour (bind, then spawn the loop, then return) is
  modelled by `serve` over an abstract bind outcome;
* the lock discipline of `update` and of the `/metrics` branch of the loop is
  modelled by explicit event traces (`updateTrace`, `serveMetricsTrace`)
  recording the order of lock acquisition, buffer access, the network write
  of the response, and the lock release (the drop of the `MutexGuard`);
* mutex-serialized concurrent updates are modelled by applying the atomic
  critical sections in an arbitrary interleaving order (`applyUpdates`).
-/

namespace MetricsServerRS

/-- A byte buffer: the contents of the `Vec<u8>` inside the mutex. -/
abbrev Buffer := List Nat

/-- The `tiny_http::Method` enumeration. -/
inductive Method where
  | Get
  | Head
  | Post
  | Put
  | Delete
  | Connect
  | Options
  | Trace
  | Patch
  | NonStandard (s : String)
deriving DecidableEq, Repr

/-- An inbound HTTP request as the serving loop observes it: `req.method()`
and `req.url()`.  In `tiny_http`, `url()` is the full request target,
query string included. -/
structure Request where
  method : Method
  url : String
deriving DecidableEq, Repr

/-- The observable part of the response the loop builds: status code and
body bytes.  `Response::empty(c)` is status `c` with empty body;
`Response::from_data(d)` is status 200 with body `d`. -/
structure ResponseModel where
  status : Nat
  body : Buffer
deriving DecidableEq, Repr

/-- Per-request dispatch of the serving loop in `MetricsServer::serve`
(`src/server.rs` lines 90-114), with `buf` the buffer contents read under
the lock: first the method check (`req.method() != &Method::Get` gives
`Response::empty(405)`), then the url check (`req.url() != "/metrics"`
gives `Response::empty(404)`), else `Response::from_data(metrics)`,
which carries status 200 and the buffer as body. -/
def handleRequest (buf : Buffer) (req : Request) : ResponseModel :=
  if req.method ≠ Method.Get then { status := 405, body := [] }
  else if req.url ≠ "/metrics" then { status := 404, body := [] }
  else { status := 200, body := buf }

/-- The path component of a request target: the characters before the first
`?`.  The source never computes this; it is needed only to state claims
about query strings. -/
def urlPath (url : String) : String :=
  (url.toList.takeWhile (fun c => c ≠ '?')).asString

/-- The heap of `Arc<Mutex<Vec<u8>>>` allocations: a fresh-address counter
and the buffer stored at each address. -/
structure MState where
  nextAlloc : Nat
  mem : Nat → Buffer

/-- Overwrite the buffer stored at address `p` (the assignment `*buf = data`
performed under the lock). -/
def MState.write (st : MState) (p : Nat) (b : Buffer) : MState :=
  { st with mem := fun i => if i = p then b else st.mem i }

/-- `pub struct MetricsServer(Arc<Mutex<Vec<u8>>>)`: a handle is the address
of its shared allocation. -/
structure MetricsServer where
  ptr : Nat
deriving DecidableEq, Repr

/-- `MetricsServer::new`: allocates a fresh mutex-protected empty vector. -/
def MetricsServer.new (st : MState) : MetricsServer × MState :=
  (⟨st.nextAlloc⟩, ⟨st.nextAlloc + 1, fun i => if i = st.nextAlloc then [] else st.mem i⟩)

/-- `#[derive(Clone)]` on `MetricsServer`: cloning clones the `Arc`, which
yields a new handle to the same allocation — the address is unchanged and
the heap is untouched. -/
def MetricsServer.clone (s : MetricsServer) : MetricsServer :=
  ⟨s.ptr⟩

/-- `MetricsServer::update`: locks, replaces the stored vector wholesale by
`data` (`*buf = data`), and returns `buf.as_slice().len()`, the length of
the buffer just stored. -/
def MetricsServer.update (s : MetricsServer) (data : Buffer) (st : MState) : Nat × MState :=
  (data.length, st.write s.ptr data)

/-- The snapshot the serving loop takes under the lock
(`let metrics = buf.lock().unwrap()` followed by `metrics.as_slice()`):
the current contents of the shared allocation. -/
def MetricsServer.snapshot (s : MetricsServer) (st : MState) : Buffer :=
  st.mem s.ptr

/-- Outcome of `Server::http(addr)`: the listener bound, or a bind error
(invalid address, port in use, permission denied). -/
inductive BindOutcome where
  | ok
  | err (msg : String)
deriving DecidableEq, Repr

/-- What `MetricsServer::serve` has done at the moment it returns to its
caller. -/
structure ServeReturn where
  loopSpawned : Bool
  handledBeforeReturn : Nat
deriving DecidableEq, Repr

/-- `MetricsServer::serve` startup (`src/server.rs` lines 69-78):
`Server::http(addr).unwrap()` runs on the caller's thread, so a bind
failure surfaces to the caller before anything is spawned
(`Except.error`); on success the accept-and-handle loop is spawned with
`thread::spawn` and `serve` returns at once, having handled no request
itself. -/
def serve (bind : BindOutcome) : Except String ServeReturn :=
  match bind with
  | BindOutcome.err e => Except.error e
  | BindOutcome.ok => Except.ok { loopSpawned := true, handledBeforeReturn := 0 }

/-- Events of a critical section around the shared buffer, in program
order. -/
inductive Event where
  | lockAcquire
  | bufferWrite
  | bufferRead
  | respondWrite
  | lockRelease
deriving DecidableEq, Repr

/-- Event trace of `MetricsServer::update`: the guard from
`self.0.lock().unwrap()` is acquired, the vector is replaced, and the
guard is dropped when the function returns.  No network write occurs. -/
def updateTrace : List Event :=
  [Event.lockAcquire, Event.bufferWrite, Event.lockRelease]

/-- Event trace of the `/metrics` branch of the serving loop
(`src/server.rs` lines 109-114): the guard `metrics` is acquired, the
bytes are copied into the response by `Response::from_data`, then
`req.respond(res)` writes to the client, and only at the end of the loop
iteration is the guard `metrics` dropped — the lock is released after the
network write. -/
def serveMetricsTrace : List Event :=
  [Event.lockAcquire, Event.bufferRead, Event.respondWrite, Event.lockRelease]

/-- A trace releases the lock before the response write when either it never
writes a response, or its (first) `lockRelease` precedes its (first)
`respondWrite`. -/
def releasedBeforeRespond (t : List Event) : Bool :=
  if Event.respondWrite ∈ t then
    t.indexOf Event.lockRelease < t.indexOf Event.respondWrite
  else true

/-- The buffer resulting from running a sequence of `update` critical
sections, in the order the mutex granted them, starting from `init`:
each section replaces the buffer wholesale. -/
def applyUpdates (init : Buffer) (us : List Buffer) : Buffer :=
  us.foldl (fun _ d => d) init

theorem applyUpdates_nil (init : Buffer) : applyUpdates init [] = init := rfl

theorem applyUpdates_cons (init u : Buffer) (us : List Buffer) :
    applyUpdates init (u :: us) = applyUpdates u us := rfl

/-- Running any sequence of wholesale replacements leaves either the initial
buffer or one of the buffers written. -/
theorem applyUpdates_eq_init_or_mem (init : Buffer) (us : List Buffer) :
    applyUpdates init us = init ∨ applyUpdates init us ∈ us := by
  induction us generalizing init with
  | nil => exact Or.inl rfl
  | cons u us ih =>
    rcases ih u with h | h
    · exact Or.inr (by simp [applyUpdates_cons, h])
    · exact Or.inr (by simp [applyUpdates_cons]; exact Or.inr h)

/-- Running a nonempty sequence of wholesale replacements leaves one of the
buffers written. -/
theorem applyUpdates_mem (init : Buffer) (us : List Buffer) (h : us ≠ []) :
    applyUpdates init us ∈ us := by
  cases us with
  | nil => exact absurd rfl h
  | cons u us =>
    rcases applyUpdates_eq_init_or_mem u us with h' | h'
    · simp [applyUpdates_cons, h']
    · simp [applyUpdates_cons]; exact Or.inr h'

/-- C1: after `update d1` then `update d2` through the same handle, the
stored buffer is exactly `d2`, and a GET `/metrics` served from that state
has status 200 with body exactly `d2` — last write wins, no merging. -/
theorem update_last_write_wins (st : MState) (s : MetricsServer) (d1 d2 : Buffer) :
    s.snapshot (s.update d2 (s.update d1 st).2).2 = d2 ∧
    handleRequest (s.snapshot (s.update d2 (s.update d1 st).2).2)
        { method := Method.Get, url := "/metrics" } =
      { status := 200, body := d2 } := by
  constructor
  · simp [MetricsServer.update, MetricsServer.snapshot, MState.write]
  · simp [MetricsServer.update, MetricsServer.snapshot, MState.write, handleRequest]

/-- C2: `update data` replaces the stored buffer wholesale with `data`
(whatever was stored before is discarded) and returns `data.length`,
including for the empty sequence. -/
theorem update_returns_length (st : MState) (s : MetricsServer) (data : Buffer) :
    (s.update data st).1 = data.length ∧
    s.snapshot (s.update data st).2 = data := by
  constructor
  · rfl
  · simp [MetricsServer.update, MetricsServer.snapshot, MState.write]

/-- C3: a GET request whose url is exactly `/metrics` is answered with
status 200 and the current buffer as body; in particular a freshly created
server (`new`, no `update`) serves status 200 with an empty body. -/
theorem get_metrics_serves_buffer (st : MState) (buf : Buffer) :
    handleRequest buf { method := Method.Get, url := "/metrics" } =
      { status := 200, body := buf } ∧
    handleRequest ((MetricsServer.new st).1.snapshot (MetricsServer.new st).2)
        { method := Method.Get, url := "/metrics" } =
      { status := 200, body := [] } := by
  constructor
  · simp [handleRequest]
  · simp [handleRequest, MetricsServer.new, MetricsServer.snapshot]

/-- C4: a GET request to any url other than `/metrics` is answered 404 with
an empty body, whatever the buffer holds. -/
theorem get_other_path_404 (buf : Buffer) (url : String) (h : url ≠ "/metrics") :
    handleRequest buf { method := Method.Get, url := url } =
      { status := 404, body := [] } := by
  simp [handleRequest, h]

/-- Witness for C4 at a concrete nonempty buffer and a concrete url. -/
theorem get_other_path_404_witness :
    "/other-path" ≠ "/metrics" ∧
    handleRequest [9, 9] { method := Method.Get, url := "/other-path" } =
      { status := 404, body := [] } :=
  ⟨by decide, get_other_path_404 [9, 9] "/other-path" (by decide)⟩

/-- C5: a non-GET request is answered 405 with an empty body, for every url
and buffer — the method check comes before the url check, so even a
non-GET request to a non-metrics url gets 405, not 404. -/
theorem non_get_405 (buf : Buffer) (m : Method) (url : String) (h : m ≠ Method.Get) :
    handleRequest buf { method := m, url := url } =
      { status := 405, body := [] } := by
  simp [handleRequest, h]

/-- Witness for C5: a POST to a non-metrics url on a nonempty buffer gets
405 (not 404). -/
theorem non_get_405_witness :
    Method.Post ≠ Method.Get ∧
    handleRequest [1] { method := Method.Post, url := "/other-path" } =
      { status := 405, body := [] } :=
  ⟨by decide, non_get_405 [1] Method.Post "/other-path" (by decide)⟩

/-- C6 counterexample: `GET /metrics?key=value` has path component
`/metrics`, yet the loop compares the full url against `"/metrics"` and
answers 404 — not 200 with the buffer, as the claim states. -/
theorem query_string_claim_false :
    urlPath "/metrics?key=value" = "/metrics" ∧
    handleRequest [] { method := Method.Get, url := "/metrics?key=value" } ≠
      { status := 200, body := ([] : Buffer) } := by
  constructor
  · rfl
  · decide

/-- C6 amended: the loop compares the full request target, query string
included, against `"/metrics"`: among GET requests whose path component is
`/metrics`, exactly the one whose url is the bare `/metrics` gets 200 with
the buffer, and any url with a query string appended gets 404 with an
empty body. -/
theorem query_string_dispatch (buf : Buffer) (url : String)
    (hpath : urlPath url = "/metrics") :
    handleRequest buf { method := Method.Get, url := url } =
      (if url = "/metrics" then { status := 200, body := buf }
       else { status := 404, body := [] }) := by
  by_cases h : url = "/metrics"
  · simp [handleRequest, h]
  · simp [handleRequest, h]

/-- Witness for the amended C6 at `url = "/metrics?key=value"`. -/
theorem query_string_dispatch_witness :
    urlPath "/metrics?key=value" = "/metrics" ∧
    handleRequest [3, 4] { method := Method.Get, url := "/metrics?key=value" } =
      (if "/metrics?key=value" = "/metrics" then { status := 200, body := [3, 4] }
       else { status := 404, body := [] }) :=
  ⟨rfl, query_string_dispatch [3, 4] "/metrics?key=value" rfl⟩

/-- C7: `serve` surfaces a bind failure to its caller synchronously — on a
bind error it returns the error and no loop is spawned; on success it
returns immediately with the accept-and-handle loop spawned and no request
handled on the caller's thread. -/
theorem serve_bind_sync (e : String) :
    serve (BindOutcome.err e) = Except.error e ∧
    serve BindOutcome.ok =
      Except.ok { loopSpawned := true, handledBeforeReturn := 0 } := by
  constructor <;> rfl

/-- C8 counterexample: in the `/metrics` branch of the serving loop the
guard `metrics` is dropped only at the end of the loop iteration, after
`req.respond` — the trace does not release the lock before the response
write, contradicting the claim that both `update` and the loop do. -/
theorem lock_across_write_claim_false :
    ¬ (releasedBeforeRespond updateTrace = true ∧
       releasedBeforeRespond serveMetricsTrace = true) := by
  decide

/-- C8 amended: `update` releases the lock before returning and performs no
network write at all, but the serving loop's `/metrics` branch holds the
lock across the response write: in its trace the `respondWrite` event
precedes the `lockRelease` event. -/
theorem lock_discipline_traces :
    releasedBeforeRespond updateTrace = true ∧
    Event.respondWrite ∉ updateTrace ∧
    serveMetricsTrace.indexOf Event.respondWrite <
      serveMetricsTrace.indexOf Event.lockRelease := by
  decide

/-- C9: the mutex serializes the `update` critical sections, each of which
replaces the buffer wholesale, so a run of N concurrent updates is some
interleaving order `order`, a permutation of the payloads; a snapshot
taken at any point observes the initial buffer or one payload in full
(never a mix), and a snapshot after all updates observes one of the
payloads in full. -/
theorem concurrent_updates_atomic (payloads order : List Buffer) (init : Buffer)
    (hperm : order.Perm payloads) :
    (∀ n : Nat, applyUpdates init (order.take n) = init ∨
      applyUpdates init (order.take n) ∈ payloads) ∧
    (order ≠ [] → applyUpdates init order ∈ payloads) := by
  constructor
  · intro n
    rcases applyUpdates_eq_init_or_mem init (order.take n) with h | h
    · exact Or.inl h
    · exact Or.inr (hperm.mem_iff.mp (List.mem_of_mem_take h))
  · intro hne
    exact hperm.mem_iff.mp (applyUpdates_mem init order hne)

/-- Witness for C9: two distinct payloads applied in swapped order leave one
of the payloads. -/
theorem concurrent_updates_atomic_witness :
    ([[2], [1]] : List Buffer).Perm [[1], [2]] ∧
    applyUpdates [] [[2], [1]] ∈ ([[1], [2]] : List Buffer) :=
  ⟨by decide,
    (concurrent_updates_atomic [[1], [2]] [[2], [1]] [] (by decide)).2 (by decide)⟩

/-- C10: cloning a `MetricsServer` clones the `Arc`, yielding a handle to
the same allocation (the heap is untouched and the address is the same),
so an `update` through the clone is observed through the original handle:
its snapshot — and hence the body a GET `/metrics` would be served — is
exactly the updated data. -/
theorem clone_shares_buffer (st : MState) (s : MetricsServer) (d : Buffer) :
    MetricsServer.clone s = s ∧
    s.snapshot ((MetricsServer.clone s).update d st).2 = d ∧
    handleRequest (s.snapshot ((MetricsServer.clone s).update d st).2)
        { method := Method.Get, url := "/metrics" } =
      { status := 200, body := d } := by
  refine ⟨rfl, ?_, ?_⟩
  · simp [MetricsServer.clone, MetricsServer.update, MetricsServer.snapshot, MState.write]
  · simp [MetricsServer.clone, MetricsServer.update, MetricsServer.snapshot, MState.write,
      handleRequest]

end MetricsServerRS
